import Mathlib

/-!
Shallow embedding of `backend/app.py`: a Flask CRUD service over a single
`items` table, with a retrying database connection provider.

Modelling conventions:
* A database connection attempt either succeeds (psycopg2 returns a
  connection, modelled as a `Nat` handle) or fails with `OperationalError`
  (modelled as `none`).  The outcome of the attempt made when the loop
  counter `retries` equals `i` is `connect i`.
* `time.sleep(3)` and each `psycopg2.connect` call are recorded as events so
  that the retry/backoff schedule of `get_db_connection` is observable.
* The `items` table is a list of rows plus the next value of the `SERIAL`
  sequence backing the `id` column.
* `request.get_json()` is modelled by a `ParseOutcome` parameter: Flask with
  the default `silent=False` either returns a parsed value (falsy values such
  as `None` or `{}` are collapsed to `ParseOutcome.returns none`, truthy
  objects to `ParseOutcome.returns (some body)`) or raises a `BadRequest`
  style exception (`ParseOutcome.raises msg`), which the blanket
  `except Exception` clause of each handler catches.
* Whether the SQL statement of a handler executes without a driver error is
  the Boolean parameter `execOk`; the error string of a failing statement is
  not modelled (the handlers only embed `str(e)` into a 500 body).
-/

/-- A row of the `items` table: `id SERIAL PRIMARY KEY, name VARCHAR(255)
NOT NULL, description TEXT`. -/
structure Item where
  id : Nat
  name : String
  description : String
deriving Repr, DecidableEq

/-- Observable events of the connection provider: a `psycopg2.connect` call
made with the loop counter at `i`, or a `time.sleep` of `secs` seconds. -/
inductive DbEvent where
  | attempt (i : Nat)
  | sleep (secs : Nat)
deriving Repr, DecidableEq, BEq

/-- Body of the `while retries < max_retries` loop in `get_db_connection`
(app.py lines 11-27), with `remaining = max_retries - retries` made explicit
so that the recursion is structural.  Each iteration tries `connect retries`;
on success the connection is returned at once; on `OperationalError` the
counter is incremented and the loop sleeps 3 seconds before re-testing the
guard.  When the guard fails the loop exits and the caller raises. -/
def gdcLoop (connect : Nat → Option Nat) (retries : Nat) :
    (remaining : Nat) → Option Nat × List DbEvent
  | 0 => (none, [])
  | remaining + 1 =>
    match connect retries with
    | some conn => (some conn, [DbEvent.attempt retries])
    | none =>
      let rest := gdcLoop connect (retries + 1) remaining
      (rest.1, DbEvent.attempt retries :: DbEvent.sleep 3 :: rest.2)

/-- The connection provider `get_db_connection(max_retries=5)`: result
(`some conn`, or `none` for the final `raise Exception("Failed to connect to
database after 5 attempts")`) together with the trace of connect attempts and
sleeps. -/
def get_db_connection (connect : Nat → Option Nat) (max_retries : Nat) :
    Option Nat × List DbEvent :=
  gdcLoop connect 0 max_retries

/-- A handler or `init_db` acquiring a connection calls `get_db_connection()`
with the default budget of 5 attempts; `none` means the exhaustion exception
reached the caller. -/
def acquire (connect : Nat → Option Nat) : Option Nat :=
  (get_db_connection connect 5).1

/-- Schema initializer `init_db` (app.py lines 29-48): runs the conditional
`CREATE TABLE`, returns `True` on success; every exception (including
connection exhaustion) is caught, logged and converted to `False`. -/
def init_db (connect : Nat → Option Nat) (execOk : Bool) : Bool :=
  match acquire connect with
  | none => false
  | some _ => execOk

/-- Outcome of module-level startup. -/
structure StartupResult where
  initOk : Bool
  running : Bool
deriving Repr, DecidableEq

/-- Module-level startup (app.py lines 50-52): `init_db()` is called once and
its result is discarded; no exception escapes `init_db`, so control always
reaches the rest of the module and the process keeps running. -/
def startup (connect : Nat → Option Nat) (execOk : Bool) : StartupResult :=
  { initOk := init_db connect execOk, running := true }

theorem gdcLoop_fail_all (connect : Nat → Option Nat) :
    ∀ remaining retries,
      (∀ i, retries ≤ i → i < retries + remaining → connect i = none) →
      gdcLoop connect retries remaining =
        (none, (List.range remaining).flatMap
          (fun j => [DbEvent.attempt (retries + j), DbEvent.sleep 3]))
  | 0, retries, _ => by simp [gdcLoop]
  | remaining + 1, retries, h => by
    have h0 : connect retries = none := h retries (Nat.le_refl _) (by omega)
    have ih := gdcLoop_fail_all connect remaining (retries + 1)
      (fun i h1 h2 => h i (by omega) (by omega))
    simp only [gdcLoop, h0, ih, List.range_succ_eq_map, List.flatMap_cons,
      List.flatMap_map, Nat.add_zero, List.cons_append, List.nil_append,
      Prod.mk.injEq, true_and]
    congr 2
    apply List.flatMap_congr
    intro j _
    have hj : retries + 1 + j = retries + (j + 1) := by omega
    simp [hj]

theorem gdcLoop_first_success (connect : Nat → Option Nat) (c : Nat) :
    ∀ k remaining retries, k < remaining →
      connect (retries + k) = some c →
      (∀ j, j < k → connect (retries + j) = none) →
      (gdcLoop connect retries remaining).1 = some c
  | 0, remaining + 1, retries, _, hc, _ => by
    simp only [Nat.add_zero] at hc
    simp [gdcLoop, hc]
  | k + 1, remaining + 1, retries, hk, hc, hfail => by
    have h0 : connect retries = none := by
      have := hfail 0 (Nat.succ_pos _)
      simpa using this
    have ih := gdcLoop_first_success connect c k remaining (retries + 1)
      (by omega)
      (by have : retries + 1 + k = retries + (k + 1) := by omega
          rw [this]; exact hc)
      (fun j hj => by
        have : retries + 1 + j = retries + (j + 1) := by omega
        rw [this]; exact hfail (j + 1) (by omega))
    simp [gdcLoop, h0, ih]

/-- C3 counterexample: when every attempt fails, the provider sleeps five
times, not four — in particular the trace ends with a sleep that follows the
fifth (final) attempt, so not every sleep lies between two consecutive
attempts. -/
theorem retry_sleep_after_last_attempt :
    (get_db_connection (fun _ => none) 5).2.count (DbEvent.sleep 3) = 5 ∧
    (get_db_connection (fun _ => none) 5).2.getLast? = some (DbEvent.sleep 3) ∧
    ¬ (get_db_connection (fun _ => none) 5).2.count (DbEvent.sleep 3) = 4 := by
  refine ⟨rfl, rfl, by decide⟩

/-- C3 (amended): the provider makes at most 5 attempts.  If every attempt
fails it makes exactly 5 attempts, sleeps 3 seconds after each failed attempt
— including the fifth, so 5 sleeps in total, the last one after the final
attempt — and then raises the exhaustion error (`none`).  If some attempt
succeeds, it returns the connection of the first successful attempt. -/
theorem retry_schedule (connect : Nat → Option Nat) :
    ((∀ i, i < 5 → connect i = none) →
      get_db_connection connect 5 =
        (none, [DbEvent.attempt 0, DbEvent.sleep 3, DbEvent.attempt 1,
                DbEvent.sleep 3, DbEvent.attempt 2, DbEvent.sleep 3,
                DbEvent.attempt 3, DbEvent.sleep 3, DbEvent.attempt 4,
                DbEvent.sleep 3])) ∧
    (∀ k c, k < 5 → connect k = some c → (∀ j, j < k → connect j = none) →
      (get_db_connection connect 5).1 = some c) := by
  constructor
  · intro h
    have := gdcLoop_fail_all connect 5 0 (fun i _ h2 => h i (by omega))
    simpa [get_db_connection, List.range_succ] using this
  · intro k c hk hc hfail
    exact gdcLoop_first_success connect c k 5 0 hk (by simpa using hc)
      (fun j hj => by simpa using hfail j hj)

theorem retry_schedule_witness :
    get_db_connection (fun _ => none) 5 =
      (none, [DbEvent.attempt 0, DbEvent.sleep 3, DbEvent.attempt 1,
              DbEvent.sleep 3, DbEvent.attempt 2, DbEvent.sleep 3,
              DbEvent.attempt 3, DbEvent.sleep 3, DbEvent.attempt 4,
              DbEvent.sleep 3]) ∧
    (get_db_connection (fun _ => some 7) 5).1 = some 7 := by
  constructor
  · exact (retry_schedule (fun _ => none)).1 (fun i _ => rfl)
  · exact (retry_schedule (fun _ => some 7)).2 0 7 (by omega) rfl
      (fun j hj => absurd hj (Nat.not_lt_zero j))

/-- C1 counterexample: with every connection attempt failing, startup still
proceeds (the process keeps running); `init_db` merely reports failure. -/
theorem startup_survives_conn_failure :
    startup (fun _ => none) true = { initOk := false, running := true } := by
  rfl

/-- C1 (amended): the process never exits at startup because of database
connectivity: `init_db` catches every error, so startup always continues to
run the server; when the connection cannot be established within the retry
budget `init_db` returns `False`. -/
theorem startup_never_fatal (connect : Nat → Option Nat) (execOk : Bool) :
    (startup connect execOk).running = true ∧
    ((∀ i, i < 5 → connect i = none) →
      (startup connect execOk).initOk = false) := by
  refine ⟨rfl, fun h => ?_⟩
  have hfail := gdcLoop_fail_all connect 5 0 (fun i _ h2 => h i (by omega))
  simp [startup, init_db, acquire, get_db_connection, hfail]

theorem startup_never_fatal_witness :
    (startup (fun _ => none) true).running = true ∧
    (startup (fun _ => none) true).initOk = false :=
  ⟨(startup_never_fatal (fun _ => none) true).1,
   (startup_never_fatal (fun _ => none) true).2 (fun i _ => rfl)⟩

/-- Parsed optional fields of a JSON request body; values are modelled as
strings (the handlers pass them through to the database unchanged). -/
structure Body where
  name : Option String
  description : Option String
deriving Repr, DecidableEq

/-- Outcome of `request.get_json()`: either the call raises (Flask with the
default `silent=False` raises a `BadRequest` style exception on a body that
does not parse as JSON) or it returns a value; falsy returned values (`None`,
`{}`, ...) are collapsed to `returns none`, so the `if not data` test of the
handlers is `ParseOutcome.returns none`. -/
inductive ParseOutcome where
  | raises (msg : String)
  | returns (data : Option Body)
deriving Repr, DecidableEq

/-- State of the `items` table: the rows plus the next value of the `SERIAL`
sequence that assigns `id`. -/
structure DbState where
  nextId : Nat
  rows : List Item
deriving Repr, DecidableEq

/-- JSON payload of a response body. -/
inductive Payload where
  | items (xs : List Item)
  | item (x : Item)
  | object (fields : List (String × String))
  | message (s : String)
  | error (s : String)
deriving Repr, DecidableEq

/-- An HTTP response: status code and JSON payload. -/
structure Response where
  status : Nat
  payload : Payload
deriving Repr, DecidableEq

/-- Result of one handler invocation, with the resource facts needed to audit
the scoped-acquisition pattern: whether a connection was successfully
acquired during the call and whether `conn.close()` ran before the handler
returned. -/
structure HandlerRun where
  response : Response
  acquired : Bool
  closed : Bool
deriving Repr, DecidableEq

/-- Python truthiness test `if not name` on an optional string: `None` and
the empty string are falsy. -/
def falsyStr : Option String → Bool
  | none => true
  | some s => s == ""

/-- Row order produced by `ORDER BY id`. -/
def itemLe (a b : Item) : Prop := a.id ≤ b.id

instance : DecidableRel itemLe := fun a b => Nat.decLe a.id b.id

instance : IsTotal Item itemLe := ⟨fun a b => Nat.le_total a.id b.id⟩

instance : IsTrans Item itemLe := ⟨fun _ _ _ hab hbc => Nat.le_trans hab hbc⟩

/-- Strict version of `itemLe`, used to pin down the unique sorted order when
ids are distinct. -/
def itemLt (a b : Item) : Prop := a.id < b.id

instance : IsAntisymm Item itemLt :=
  ⟨fun _ _ h1 h2 => absurd h1 (Nat.lt_asymm h2)⟩

/-- Semantics of `SELECT * FROM items ORDER BY id`: the rows sorted by
ascending `id`. -/
def sortById (l : List Item) : List Item := List.insertionSort itemLe l

/-- Error message of the exhaustion exception raised by
`get_db_connection`. -/
def connExhaustedMsg : String := "Failed to connect to database after 5 attempts"

/-- Placeholder for `str(e)` of a failing SQL statement (its exact text is
irrelevant to every claim). -/
def dbErrMsg : String := "database error"

/-- Handler `GET /items` (app.py lines 85-96): acquire a connection, run
`SELECT * FROM items ORDER BY id`, fetch all rows, close cursor and
connection, return the rows; any exception is converted to a 500.  If the
statement raises, the `except` branch returns without executing
`conn.close()`. -/
def get_items_run (connect : Nat → Option Nat) (execOk : Bool)
    (db : DbState) : HandlerRun :=
  match acquire connect with
  | none => ⟨⟨500, Payload.error connExhaustedMsg⟩, false, false⟩
  | some _ =>
    if execOk then ⟨⟨200, Payload.items (sortById db.rows)⟩, true, true⟩
    else ⟨⟨500, Payload.error dbErrMsg⟩, true, false⟩

/-- Handler `POST /items` (app.py lines 98-123): parse the body (a raising
parse lands in the blanket `except` and yields a 500); falsy body data gives
400; falsy `name` (missing or empty) gives 400; otherwise insert a row with
the next serial id, `description` defaulting to the empty string, and return
it with 201.  A raising statement yields a 500 with the connection left
unclosed. -/
def create_item (parse : ParseOutcome) (connect : Nat → Option Nat)
    (execOk : Bool) (db : DbState) : HandlerRun × DbState :=
  match parse with
  | ParseOutcome.raises msg => (⟨⟨500, Payload.error msg⟩, false, false⟩, db)
  | ParseOutcome.returns none =>
    (⟨⟨400, Payload.error "Request must contain JSON"⟩, false, false⟩, db)
  | ParseOutcome.returns (some data) =>
    if falsyStr data.name then
      (⟨⟨400, Payload.error "Item name is required"⟩, false, false⟩, db)
    else
      let nm := data.name.getD ""
      let ds := data.description.getD ""
      match acquire connect with
      | none => (⟨⟨500, Payload.error connExhaustedMsg⟩, false, false⟩, db)
      | some _ =>
        if execOk then
          let item : Item := ⟨db.nextId, nm, ds⟩
          (⟨⟨201, Payload.item item⟩, true, true⟩,
            ⟨db.nextId + 1, db.rows ++ [item]⟩)
        else (⟨⟨500, Payload.error dbErrMsg⟩, true, false⟩, db)

/-- Handler `GET /items/<int:id>` (app.py lines 125-138): run
`SELECT * FROM items WHERE id = %s`, `fetchone()` (the first matching row),
404 when no row matches. -/
def get_item (connect : Nat → Option Nat) (execOk : Bool) (i : Nat)
    (db : DbState) : HandlerRun :=
  match acquire connect with
  | none => ⟨⟨500, Payload.error connExhaustedMsg⟩, false, false⟩
  | some _ =>
    if execOk then
      match db.rows.find? (fun r => r.id == i) with
      | some r => ⟨⟨200, Payload.item r⟩, true, true⟩
      | none => ⟨⟨404, Payload.error "Item not found"⟩, true, true⟩
    else ⟨⟨500, Payload.error dbErrMsg⟩, true, false⟩

/-- A positional SQL parameter bound for a `%s` placeholder. -/
inductive SqlParam where
  | str (s : String)
  | num (n : Nat)
deriving Repr, DecidableEq

/-- Dynamic clause construction of `PUT /items/<id>` (app.py lines 150-158):
one assignment clause is appended per present field, `name` first, then
`description`; the field values are appended to the positional parameter list
in the same order.  Returns `(updates, values)`. -/
def updateFields (name description : Option String) :
    List String × List SqlParam :=
  let s1 : List String × List SqlParam :=
    match name with
    | some n => (["name = %s"], [SqlParam.str n])
    | none => ([], [])
  let s2 : List String × List SqlParam :=
    match description with
    | some d => (["description = %s"], [SqlParam.str d])
    | none => ([], [])
  (s1.1 ++ s2.1, s1.2 ++ s2.2)

/-- Statement text built at app.py line 164:
`f"UPDATE items SET {updates joined by comma} WHERE id = %s RETURNING *"`.
Only fixed column-name tokens enter the text; values stay placeholders. -/
def update_query (name description : Option String) : String :=
  "UPDATE items SET " ++
    String.intercalate ", " (updateFields name description).1 ++
    " WHERE id = %s RETURNING *"

/-- Positional parameters passed to `cur.execute` for the update: the present
field values in clause order, then the path id (`values.append(id)` at
app.py line 163). -/
def update_values (name description : Option String) (i : Nat) :
    List SqlParam :=
  (updateFields name description).2 ++ [SqlParam.num i]

/-- Effect of one assignment list on a row: `name = %s` sets `name` to the
bound value, `description = %s` sets `description`; absent fields leave the
column unchanged. -/
def applyUpdate (name description : Option String) (r : Item) : Item :=
  { r with
    name := name.getD r.name,
    description := description.getD r.description }

/-- Handler `PUT /items/<int:id>` (app.py lines 140-178): parse the body (a
raising parse lands in the blanket `except` as a 500); falsy data gives 400;
`data.get` distinguishes absent fields (`None`) from present ones (any
string, including the empty string); with no present field, 400; otherwise
the dynamic `UPDATE ... RETURNING *` runs against every row whose `id`
matches, `fetchone()` yields the first updated row, and a missing row gives
404. -/
def update_item (parse : ParseOutcome) (connect : Nat → Option Nat)
    (execOk : Bool) (i : Nat) (db : DbState) : HandlerRun × DbState :=
  match parse with
  | ParseOutcome.raises msg => (⟨⟨500, Payload.error msg⟩, false, false⟩, db)
  | ParseOutcome.returns none =>
    (⟨⟨400, Payload.error "Request must contain JSON"⟩, false, false⟩, db)
  | ParseOutcome.returns (some data) =>
    if (updateFields data.name data.description).1 = [] then
      (⟨⟨400, Payload.error "At least one field to update is required"⟩,
        false, false⟩, db)
    else
      match acquire connect with
      | none => (⟨⟨500, Payload.error connExhaustedMsg⟩, false, false⟩, db)
      | some _ =>
        if execOk then
          let newRows := db.rows.map (fun r =>
            if r.id == i then applyUpdate data.name data.description r else r)
          match (db.rows.find? (fun r => r.id == i)).map
              (applyUpdate data.name data.description) with
          | some u =>
            (⟨⟨200, Payload.item u⟩, true, true⟩, ⟨db.nextId, newRows⟩)
          | none =>
            (⟨⟨404, Payload.error "Item not found"⟩, true, true⟩,
              ⟨db.nextId, newRows⟩)
        else (⟨⟨500, Payload.error dbErrMsg⟩, true, false⟩, db)

/-- Fields of the JSON object returned by `GET /` (app.py lines 54-61). -/
def index_fields (hostname : String) : List (String × String) :=
  [("service", "Backend API"), ("hostname", hostname),
   ("status", "running"), ("database", "connected")]

/-- Handler `GET /` (app.py lines 54-61) as invoked in a world where the
database may or may not be reachable: the handler never touches the
connection provider, so its database event trace is empty and the
`dbReachable` argument is never consulted. -/
def index_run (hostname : String) (dbReachable : Bool) :
    Response × List DbEvent :=
  (⟨200, Payload.object (index_fields hostname)⟩, [])

/-- C2 counterexample: a request body that makes `request.get_json()` raise
(e.g. malformed JSON sent with a JSON content type, with the default
`silent=False`) is caught by the blanket `except Exception` and answered
with 500, not 400. -/
theorem create_item_raise_gives_500 :
    (create_item (ParseOutcome.raises "Failed to decode JSON object")
        (fun _ => some 0) true ⟨1, []⟩).1.response.status = 500 ∧
    ¬ (create_item (ParseOutcome.raises "Failed to decode JSON object")
        (fun _ => some 0) true ⟨1, []⟩).1.response.status = 400 := by
  exact ⟨rfl, by decide⟩

/-- C2 (amended): `POST /items` returns 400 with a validation message when
`get_json` returns no (falsy) data, but when the body parse raises — as
Flask does by default for a body that is not valid JSON — the blanket
exception handler converts it to a 500 carrying the parser error. -/
theorem create_item_parse_statuses (parse : ParseOutcome)
    (connect : Nat → Option Nat) (execOk : Bool) (db : DbState) :
    (parse = ParseOutcome.returns none →
      (create_item parse connect execOk db).1.response =
        ⟨400, Payload.error "Request must contain JSON"⟩) ∧
    (∀ msg, parse = ParseOutcome.raises msg →
      (create_item parse connect execOk db).1.response =
        ⟨500, Payload.error msg⟩) := by
  constructor
  · intro h; subst h; rfl
  · intro msg h; subst h; rfl

theorem create_item_parse_statuses_witness :
    (create_item (ParseOutcome.returns none) (fun _ => some 0) true
        ⟨1, []⟩).1.response = ⟨400, Payload.error "Request must contain JSON"⟩ ∧
    (create_item (ParseOutcome.raises "bad body") (fun _ => some 0) true
        ⟨1, []⟩).1.response = ⟨500, Payload.error "bad body"⟩ :=
  ⟨(create_item_parse_statuses (ParseOutcome.returns none)
      (fun _ => some 0) true ⟨1, []⟩).1 rfl,
   (create_item_parse_statuses (ParseOutcome.raises "bad body")
      (fun _ => some 0) true ⟨1, []⟩).2 "bad body" rfl⟩

/-- C4: the UPDATE statement text depends only on which fields are present,
never on their values; present fields contribute one clause each in the order
name-then-description, the id predicate closes the statement, and the values
are bound positionally (field values in clause order, then the id). -/
theorem update_query_presence_only (n₁ d₁ n₂ d₂ : Option String) (i : Nat)
    (hpresent : n₁.isSome ∨ d₁.isSome)
    (h1 : n₁.isSome = n₂.isSome) (h2 : d₁.isSome = d₂.isSome) :
    update_query n₁ d₁ = update_query n₂ d₂ ∧
    (∀ a b, update_query (some a) (some b) =
      "UPDATE items SET name = %s, description = %s WHERE id = %s RETURNING *") ∧
    (∀ a, update_query (some a) none =
      "UPDATE items SET name = %s WHERE id = %s RETURNING *") ∧
    (∀ b, update_query none (some b) =
      "UPDATE items SET description = %s WHERE id = %s RETURNING *") ∧
    update_values n₁ d₁ i =
      n₁.toList.map SqlParam.str ++ d₁.toList.map SqlParam.str ++
        [SqlParam.num i] := by
  refine ⟨?_, fun a b => rfl, fun a => rfl, fun b => rfl, ?_⟩
  · cases n₁ <;> cases n₂ <;> cases d₁ <;> cases d₂ <;>
      simp_all [update_query, updateFields]
  · cases n₁ <;> cases d₁ <;> rfl

theorem update_query_presence_only_witness :
    update_query (some "alpha") none = update_query (some "beta") none ∧
    update_query (some "x") (some "y") =
      "UPDATE items SET name = %s, description = %s WHERE id = %s RETURNING *" ∧
    update_query (some "x") none =
      "UPDATE items SET name = %s WHERE id = %s RETURNING *" ∧
    update_query none (some "y") =
      "UPDATE items SET description = %s WHERE id = %s RETURNING *" ∧
    update_values (some "alpha") none 9 =
      (some "alpha").toList.map SqlParam.str ++
        (none : Option String).toList.map SqlParam.str ++
        [SqlParam.num 9] :=
  have h := update_query_presence_only (some "alpha") none (some "beta") none 9
    (Or.inl rfl) rfl rfl
  ⟨h.1, h.2.1 "x" "y", h.2.2.1 "x", h.2.2.2.1 "y", h.2.2.2.2⟩

/-- C8 counterexample: a handler whose SQL statement raises after the
connection was acquired returns through the `except` branch without calling
`conn.close()`: the acquired connection is not closed on that exit path. -/
theorem get_items_leaks_on_exec_error :
    (get_items_run (fun _ => some 0) false ⟨1, []⟩).acquired = true ∧
    (get_items_run (fun _ => some 0) false ⟨1, []⟩).closed = false := by
  exact ⟨rfl, rfl⟩

/-- C8 (amended): in `GET /items` and `POST /items` the acquired connection
is closed exactly on the success path: `closed = acquired && execOk`.  When
the statement raises after acquisition, the handler returns 500 with the
connection still open; when no connection was acquired there is nothing to
close. -/
theorem handlers_close_only_on_success (connect : Nat → Option Nat)
    (execOk : Bool) (db : DbState) (parse : ParseOutcome) :
    ((get_items_run connect execOk db).closed =
      ((get_items_run connect execOk db).acquired && execOk)) ∧
    ((create_item parse connect execOk db).1.closed =
      ((create_item parse connect execOk db).1.acquired && execOk)) := by
  constructor
  · cases h : acquire connect <;> cases execOk <;>
      simp [get_items_run, h]
  · cases parse with
    | raises msg => cases execOk <;> rfl
    | returns data =>
      cases data with
      | none => cases execOk <;> rfl
      | some body =>
        cases hb : falsyStr body.name <;> cases h : acquire connect <;>
          cases execOk <;> simp [create_item, hb, h]

/-- C9: `GET /` performs no database access, and its response — including
the field `database: connected` — is the same fixed object whatever the
actual reachability of the database. -/
theorem index_static (hostname : String) (b1 b2 : Bool) :
    index_run hostname b1 = index_run hostname b2 ∧
    (index_run hostname b1).2 = [] ∧
    (index_fields hostname).lookup "database" = some "connected" ∧
    (index_run hostname b1).1 =
      ⟨200, Payload.object (index_fields hostname)⟩ := by
  exact ⟨rfl, rfl, rfl, rfl⟩

theorem pairwise_lt_of_sorted_nodup (l : List Item)
    (hle : l.Sorted itemLe) (hne : l.Pairwise (fun a b => a.id ≠ b.id)) :
    l.Pairwise itemLt := by
  induction l with
  | nil => exact List.Pairwise.nil
  | cons a t ih =>
    rw [List.sorted_cons] at hle
    rw [List.pairwise_cons] at hne ⊢
    exact ⟨fun b hb => Nat.lt_of_le_of_ne (hle.1 b hb) (hne.1 b hb),
      ih hle.2 hne.2⟩

theorem sortById_eq_of_perm (l₁ l₂ : List Item) (hp : l₁.Perm l₂)
    (hnodup : (l₁.map Item.id).Nodup) :
    sortById l₁ = sortById l₂ := by
  have p1 : (sortById l₁).Perm l₁ := List.perm_insertionSort itemLe l₁
  have p2 : (sortById l₂).Perm l₂ := List.perm_insertionSort itemLe l₂
  have ps : (sortById l₁).Perm (sortById l₂) :=
    (p1.trans hp).trans p2.symm
  have hn1 : (sortById l₁).Pairwise (fun a b => a.id ≠ b.id) := by
    have : ((sortById l₁).map Item.id).Nodup :=
      ((p1.map Item.id).nodup_iff).mpr hnodup
    rwa [List.Nodup, List.pairwise_map] at this
  have hn2 : (sortById l₂).Pairwise (fun a b => a.id ≠ b.id) := by
    have : ((sortById l₂).map Item.id).Nodup :=
      ((ps.map Item.id).nodup_iff).mp
        (((p1.map Item.id).nodup_iff).mpr hnodup)
    rwa [List.Nodup, List.pairwise_map] at this
  exact List.eq_of_perm_of_sorted (r := itemLt) ps
    (pairwise_lt_of_sorted_nodup _ (List.sorted_insertionSort itemLe l₁) hn1)
    (pairwise_lt_of_sorted_nodup _ (List.sorted_insertionSort itemLe l₂) hn2)

/-- C5: with the database reachable, `GET /items` returns status 200 with
exactly the rows of the table (a permutation of them), sorted by ascending
id; and for a table with distinct ids the response is the same whatever
order the rows were inserted in. -/
theorem get_items_sorted (connect : Nat → Option Nat) (c : Nat)
    (db : DbState) (hacq : acquire connect = some c)
    (hnodup : (db.rows.map Item.id).Nodup) :
    (get_items_run connect true db).response =
      ⟨200, Payload.items (sortById db.rows)⟩ ∧
    (sortById db.rows).Perm db.rows ∧
    (sortById db.rows).Sorted itemLe ∧
    ∀ rows2, rows2.Perm db.rows →
      get_items_run connect true ⟨db.nextId, rows2⟩ =
        get_items_run connect true db := by
  refine ⟨by simp [get_items_run, hacq], List.perm_insertionSort itemLe _,
    List.sorted_insertionSort itemLe _, fun rows2 hperm => ?_⟩
  have : sortById rows2 = sortById db.rows :=
    sortById_eq_of_perm rows2 db.rows hperm
      (((hperm.map Item.id).nodup_iff).mpr hnodup)
  simp [get_items_run, hacq, this]

theorem get_items_sorted_witness :
    (get_items_run (fun _ => some 0) true
        ⟨3, [⟨2, "b", "bb"⟩, ⟨1, "a", "aa"⟩]⟩).response =
      ⟨200, Payload.items (sortById [⟨2, "b", "bb"⟩, ⟨1, "a", "aa"⟩])⟩ ∧
    (sortById [⟨2, "b", "bb"⟩, ⟨1, "a", "aa"⟩]).Perm
      [⟨2, "b", "bb"⟩, ⟨1, "a", "aa"⟩] ∧
    (sortById [⟨2, "b", "bb"⟩, ⟨1, "a", "aa"⟩]).Sorted itemLe ∧
    get_items_run (fun _ => some 0) true
        ⟨3, [⟨1, "a", "aa"⟩, ⟨2, "b", "bb"⟩]⟩ =
      get_items_run (fun _ => some 0) true
        ⟨3, [⟨2, "b", "bb"⟩, ⟨1, "a", "aa"⟩]⟩ :=
  have h := get_items_sorted (fun _ => some 0) 0
    ⟨3, [⟨2, "b", "bb"⟩, ⟨1, "a", "aa"⟩]⟩ rfl (by decide)
  ⟨h.1, h.2.1, h.2.2.1, h.2.2.2 [⟨1, "a", "aa"⟩, ⟨2, "b", "bb"⟩] (by decide)⟩

theorem find_skip_all (p : Item → Bool) (l1 l2 : List Item)
    (h : ∀ r ∈ l1, p r = false) : (l1 ++ l2).find? p = l2.find? p := by
  induction l1 with
  | nil => rfl
  | cons a t ih =>
    have ha := h a (List.mem_cons_self a t)
    simp only [List.cons_append, List.find?, ha]
    exact ih (fun r hr => h r (List.mem_cons_of_mem a hr))

/-- C6: with the database reachable and the `SERIAL` sequence ahead of every
existing id (its invariant), `POST /items` with `name = "foo"` and no
`description` answers 201 with an item carrying that name, empty
description and the positive store-assigned id, and `GET /items/<id>` on the
resulting state returns the identical record. -/
theorem create_then_get (connect : Nat → Option Nat) (c : Nat)
    (db : DbState) (hacq : acquire connect = some c)
    (hpos : 1 ≤ db.nextId) (hlt : ∀ r ∈ db.rows, r.id < db.nextId) :
    (create_item (ParseOutcome.returns (some ⟨some "foo", none⟩))
        connect true db).1.response =
      ⟨201, Payload.item ⟨db.nextId, "foo", ""⟩⟩ ∧
    0 < db.nextId ∧
    (get_item connect true db.nextId
        (create_item (ParseOutcome.returns (some ⟨some "foo", none⟩))
          connect true db).2).response =
      ⟨200, Payload.item ⟨db.nextId, "foo", ""⟩⟩ := by
  have hstate : (create_item (ParseOutcome.returns (some ⟨some "foo", none⟩))
      connect true db).2 =
      ⟨db.nextId + 1, db.rows ++ [⟨db.nextId, "foo", ""⟩]⟩ := by
    simp [create_item, falsyStr, hacq]
  refine ⟨by simp [create_item, falsyStr, hacq], hpos, ?_⟩
  rw [hstate]
  have hfind : (db.rows ++ [(⟨db.nextId, "foo", ""⟩ : Item)]).find?
      (fun r => r.id == db.nextId) = some ⟨db.nextId, "foo", ""⟩ := by
    rw [find_skip_all _ _ _ (fun r hr => by
      have := hlt r hr
      simp [Nat.ne_of_lt this])]
    simp [List.find?]
  simp [get_item, hacq, hfind]

theorem create_then_get_witness :
    (create_item (ParseOutcome.returns (some ⟨some "foo", none⟩))
        (fun _ => some 0) true ⟨2, [⟨1, "x", "y"⟩]⟩).1.response =
      ⟨201, Payload.item ⟨2, "foo", ""⟩⟩ ∧
    0 < 2 ∧
    (get_item (fun _ => some 0) true 2
        (create_item (ParseOutcome.returns (some ⟨some "foo", none⟩))
          (fun _ => some 0) true ⟨2, [⟨1, "x", "y"⟩]⟩).2).response =
      ⟨200, Payload.item ⟨2, "foo", ""⟩⟩ :=
  create_then_get (fun _ => some 0) 0 ⟨2, [⟨1, "x", "y"⟩]⟩ rfl
    (by decide) (by decide)

/-- C7: on an existing item (the first row matching the id), a `PUT` that
supplies only `description` answers 200 with the name unchanged — and the
stored names of all rows are unchanged — and a `PUT` that supplies only
`name` answers 200 with the description unchanged, the stored descriptions
of all rows being unchanged. -/
theorem update_frame (connect : Nat → Option Nat) (c : Nat) (i : Nat)
    (db : DbState) (r : Item) (nm ds : String)
    (hacq : acquire connect = some c)
    (hfind : db.rows.find? (fun x => x.id == i) = some r) :
    ((update_item (ParseOutcome.returns (some ⟨none, some ds⟩))
        connect true i db).1.response = ⟨200, Payload.item ⟨r.id, r.name, ds⟩⟩ ∧
      (update_item (ParseOutcome.returns (some ⟨none, some ds⟩))
        connect true i db).2.rows.map Item.name = db.rows.map Item.name) ∧
    ((update_item (ParseOutcome.returns (some ⟨some nm, none⟩))
        connect true i db).1.response =
          ⟨200, Payload.item ⟨r.id, nm, r.description⟩⟩ ∧
      (update_item (ParseOutcome.returns (some ⟨some nm, none⟩))
        connect true i db).2.rows.map Item.description =
          db.rows.map Item.description) := by
  constructor
  · constructor
    · simp [update_item, updateFields, hacq, hfind, applyUpdate]
    · simp [update_item, updateFields, hacq, hfind, List.map_map]
      intro x _
      by_cases h : x.id = i <;> simp [applyUpdate, h]
  · constructor
    · simp [update_item, updateFields, hacq, hfind, applyUpdate]
    · simp [update_item, updateFields, hacq, hfind, List.map_map]
      intro x _
      by_cases h : x.id = i <;> simp [applyUpdate, h]

theorem update_frame_witness :
    ((update_item (ParseOutcome.returns (some ⟨none, some "newd"⟩))
        (fun _ => some 0) true 1 ⟨2, [⟨1, "n1", "d1"⟩]⟩).1.response =
          ⟨200, Payload.item ⟨1, "n1", "newd"⟩⟩ ∧
      (update_item (ParseOutcome.returns (some ⟨none, some "newd"⟩))
        (fun _ => some 0) true 1 ⟨2, [⟨1, "n1", "d1"⟩]⟩).2.rows.map Item.name =
          [⟨1, "n1", "d1"⟩].map (fun x : Item => x.name)) ∧
    ((update_item (ParseOutcome.returns (some ⟨some "newn", none⟩))
        (fun _ => some 0) true 1 ⟨2, [⟨1, "n1", "d1"⟩]⟩).1.response =
          ⟨200, Payload.item ⟨1, "newn", "d1"⟩⟩ ∧
      (update_item (ParseOutcome.returns (some ⟨some "newn", none⟩))
        (fun _ => some 0) true 1
          ⟨2, [⟨1, "n1", "d1"⟩]⟩).2.rows.map Item.description =
        [⟨1, "n1", "d1"⟩].map (fun x : Item => x.description)) :=
  update_frame (fun _ => some 0) 0 1 ⟨2, [⟨1, "n1", "d1"⟩]⟩
    ⟨1, "n1", "d1"⟩ "newn" "newd" rfl rfl

/-- C10: `PUT /items/<id>` only tests that `name` is present (`is not None`),
so an update with the empty-string name on an existing item is accepted with
200 and stores the empty name, while `POST /items` rejects the empty name
with 400 (`if not name` is true for the empty string): update does not
preserve the non-empty-name invariant of the data model. -/
theorem update_accepts_empty_name (connect : Nat → Option Nat) (c : Nat)
    (i : Nat) (db : DbState) (r : Item) (d : Option String)
    (hacq : acquire connect = some c)
    (hfind : db.rows.find? (fun x => x.id == i) = some r) :
    (update_item (ParseOutcome.returns (some ⟨some "", none⟩))
        connect true i db).1.response =
      ⟨200, Payload.item ⟨r.id, "", r.description⟩⟩ ∧
    ¬ (update_item (ParseOutcome.returns (some ⟨some "", none⟩))
        connect true i db).1.response.status = 400 ∧
    (create_item (ParseOutcome.returns (some ⟨some "", d⟩))
        connect true db).1.response =
      ⟨400, Payload.error "Item name is required"⟩ := by
  refine ⟨?_, ?_, by simp [create_item, falsyStr]⟩
  · simp [update_item, updateFields, hacq, hfind, applyUpdate]
  · simp [update_item, updateFields, hacq, hfind, applyUpdate]

theorem update_accepts_empty_name_witness :
    (update_item (ParseOutcome.returns (some ⟨some "", none⟩))
        (fun _ => some 0) true 1 ⟨2, [⟨1, "n1", "d1"⟩]⟩).1.response =
      ⟨200, Payload.item ⟨1, "", "d1"⟩⟩ ∧
    ¬ (update_item (ParseOutcome.returns (some ⟨some "", none⟩))
        (fun _ => some 0) true 1 ⟨2, [⟨1, "n1", "d1"⟩]⟩).1.response.status = 400 ∧
    (create_item (ParseOutcome.returns (some ⟨some "", none⟩))
        (fun _ => some 0) true ⟨2, [⟨1, "n1", "d1"⟩]⟩).1.response =
      ⟨400, Payload.error "Item name is required"⟩ :=
  update_accepts_empty_name (fun _ => some 0) 0 1 ⟨2, [⟨1, "n1", "d1"⟩]⟩
    ⟨1, "n1", "d1"⟩ none rfl rfl
